import Mathlib

/-!
# Verification of the ops-api real-time session orchestration layer

A shallow embedding, in Lean 4, of the real-time orchestration code of the
`ops-api` service: the `RtcTokenService.issueToken` identity-resolution and
token-issuance flow, the `RtcController.issueToken` HTTP validation layer,
the `LiveKitService` room reaper (`closeAdminOnlyRooms`) and takeover
controller (`muteAgentInRoom` and its subscription helpers), and the
`LiveKitWebhookController.handleWebhook` event processor with its deferred
`room_finished` analysis task.

External collaborators (the LiveKit room service, the database, the AI
analysis provider, `randomUUID`, JWT minting) are modelled as oracles
carried in environment records; each embedded operation returns its result
together with a trace of the outbound calls it attempted, so that ordering
and best-effort (failure-swallowing) behaviour are provable facts about
the trace.  TypeScript string operations (`startsWith`, `trim`, `slice`)
are embedded as executable functions over the underlying character lists,
and TypeScript truthiness of optional strings is made explicit.
-/

namespace OpsApi

/-- Embedding of JavaScript `p.startsWith(q)` over character lists. -/
def tsStartsWith (s p : String) : Bool := p.toList.isPrefixOf s.toList

/-- Embedding of JavaScript `s.trim()`: strip whitespace from both ends. -/
def tsTrim (s : String) : String :=
  String.mk (((s.toList.dropWhile Char.isWhitespace).reverse.dropWhile
    Char.isWhitespace).reverse)

/-- Embedding of JavaScript `s.slice(n)` (drop the first `n` characters). -/
def tsDropChars (s : String) (n : Nat) : String := String.mk (s.toList.drop n)

/-- Truthiness of an optional JavaScript string: `undefined` and the empty
string are falsy, every other string is truthy. -/
def strTruthy : Option String → Bool
  | none => false
  | some s => !(s == "")

/-! ## LiveKit participant model

`listParticipants` returns participant records; the reaper and the takeover
controller only read the identity string and the published tracks
(`track.type === 1` marks an audio track, `track.sid` names it). -/

/-- A published LiveKit track: its server id `sid` and its numeric `type`
(audio is type `1`), as read by the takeover controller. -/
structure LkTrack where
  sid : String
  ty : Nat
deriving DecidableEq, Repr

/-- A LiveKit participant as observed through `listParticipants`: the
identity string and the published tracks. -/
structure LkParticipant where
  identity : String
  tracks : List LkTrack := []
deriving DecidableEq, Repr

/-- Identity-prefix classification used by `closeAdminOnlyRooms`: an agent
participant is one whose identity starts with `agent-`. -/
def isAgentId (id : String) : Bool := tsStartsWith id "agent-"

/-- Identity-prefix classification: an operator (admin) participant is one
whose identity starts with `admin_`. -/
def isAdminId (id : String) : Bool := tsStartsWith id "admin_"

/-- A real-user participant is one that is neither admin- nor
agent-prefixed, exactly the predicate inside `closeAdminOnlyRooms`. -/
def isRealUserId (id : String) : Bool := !(isAdminId id) && !(isAgentId id)

/-! ## Room reaper: `LiveKitService.closeAdminOnlyRooms`

The environment holds the room listing, the result of the first
`listParticipants` call per room, the result of the re-listing performed
after the removal loop (which may differ: a real user can join
mid-cleanup), and success oracles for the remove/delete RPCs whose
failures the code logs and swallows. -/

/-- Oracles for one `closeAdminOnlyRooms` pass over the live LiveKit
state.  `firstList` is what `listParticipants` returns on the initial
scan of a room; `secondList` is what the post-removal re-listing returns. -/
structure ReapEnv where
  rooms : List String
  firstList : String → List LkParticipant
  secondList : String → List LkParticipant
  removeOk : String → String → Bool
  deleteOk : String → Bool

/-- One outbound LiveKit call attempted by the reaper.  `phase 0` is the
initial `listParticipants` of a room, `phase 1` the post-removal
re-listing.  Remove/delete ops record the success oracle's verdict. -/
inductive ReapOp where
  | listParticipants (room : String) (phase : Nat)
  | removeParticipant (room ident : String) (ok : Bool)
  | deleteRoom (room : String) (ok : Bool)
deriving DecidableEq, Repr

/-- The scan `closeAdminOnlyRooms` performs for one live room, as the
trace of LiveKit calls it attempts: delete empty rooms outright;
otherwise, if no real user is present, remove every listed participant
(failures logged and swallowed), re-list, and delete only if the
re-listing still shows no real user. -/
def reapRoom (env : ReapEnv) (room : String) : List ReapOp :=
  let ps := env.firstList room
  if ps.isEmpty then
    [.listParticipants room 0, .deleteRoom room (env.deleteOk room)]
  else
    let hasRealUsers := ps.any fun p => isRealUserId p.identity
    if hasRealUsers then
      [.listParticipants room 0]
    else
      let removals := ps.map fun p =>
        ReapOp.removeParticipant room p.identity (env.removeOk room p.identity)
      let updatedParticipants := env.secondList room
      let stillHasNoRealUsers :=
        !(updatedParticipants.any fun p => isRealUserId p.identity)
      [ReapOp.listParticipants room 0] ++ removals
        ++ [ReapOp.listParticipants room 1]
        ++ (if stillHasNoRealUsers then
              [ReapOp.deleteRoom room (env.deleteOk room)]
            else [])

/-- A full `closeAdminOnlyRooms` pass: scan every listed room in order;
per-room failures never abort the scan of other rooms. -/
def closeAdminOnlyRooms (env : ReapEnv) : List ReapOp :=
  env.rooms.flatMap (reapRoom env)

/-- Predicate selecting the removal ops of a given room in a reap trace. -/
def isRemovalOf (room : String) : ReapOp → Bool
  | .removeParticipant r _ _ => r == room
  | _ => false

/-- Predicate selecting a delete op of a given room in a reap trace. -/
def isDeleteOf (room : String) : ReapOp → Bool
  | .deleteRoom r _ => r == room
  | _ => false

/-- Concrete reap environment used to witness the reaper theorem: one live
room holding one operator and one agent, whose re-listing comes back
empty. -/
def reapEnvW : ReapEnv where
  rooms := ["room-7"]
  firstList := fun _ => [⟨"admin_1", []⟩, ⟨"agent-voice", []⟩]
  secondList := fun _ => []
  removeOk := fun _ _ => true
  deleteOk := fun _ => true

/-! ## Takeover controller: `LiveKitService.muteAgentInRoom`

The toggle applies three signaling channels in sequence: (1) subscription
control via `updateAgentSubscriptions` (what the agent hears) and
`updateIosSubscriptionsToAgent` (what real users hear from the agent),
(2) a reliable data message `takeover:start` / `takeover:end` targeted at
the agent identities, (3) a room-metadata write of the takeover flag and a
timestamp.  Each helper lists the room's participants itself; individual
`updateSubscriptions` RPC failures are caught per target and swallowed,
while a failed `listParticipants`, a failed `sendData` and a failed
metadata write propagate. -/

/-- Oracles for one `muteAgentInRoom` call.  `list0`, `list1`, `list2` are
the results of the three `listParticipants` calls (in `muteAgentInRoom`,
`updateAgentSubscriptions` and `updateIosSubscriptionsToAgent`
respectively); `none` models the call throwing.  `subOk` is the success
verdict of each `updateSubscriptions` RPC keyed by target identity;
`sendOk` and `metaOk` govern `sendData` and `updateRoomMetadata`. -/
structure MuteEnv where
  list0 : Option (List LkParticipant)
  list1 : Option (List LkParticipant)
  list2 : Option (List LkParticipant)
  subOk : String → Bool
  sendOk : Bool
  metaOk : Bool
  now : Nat

/-- One outbound LiveKit call attempted during a takeover toggle.  The
`ok` fields record the oracle's verdict on the attempt. -/
inductive MuteOp where
  | listParticipants (phase : Nat)
  | updateSubscriptions (ident : String) (trackSids : List String)
      (subscribe : Bool) (ok : Bool)
  | sendData (msg : String) (destinationIdentities : List String) (ok : Bool)
  | updateRoomMetadata (takeover : Bool) (timestamp : Nat) (ok : Bool)
  | warnNoAgents
deriving DecidableEq, Repr

/-- The sids of a participant's published audio tracks (`type === 1`), in
publication order. -/
def audioSids (p : LkParticipant) : List String :=
  (p.tracks.filter fun t => t.ty == 1).map fun t => t.sid

/-- Embedding of `updateAgentSubscriptions`: list participants (phase 1);
if no agent or no non-agent/non-admin audio track exists, return quietly;
otherwise attempt one `updateSubscriptions` RPC per agent (per-agent
failures are caught and logged), subscribing on unmute and unsubscribing
on mute.  Only a failed `listParticipants` propagates as an error. -/
def updateAgentSubscriptions (env : MuteEnv) (mute : Bool) :
    Except Unit Unit × List MuteOp :=
  match env.list1 with
  | none => (.error (), [.listParticipants 1])
  | some participants =>
    let agents := participants.filter fun p => isAgentId p.identity
    if agents.isEmpty then (.ok (), [.listParticipants 1])
    else
      let nonAgentAudioTracks :=
        (participants.filter fun p =>
          !(isAgentId p.identity) && !(isAdminId p.identity)).flatMap audioSids
      if nonAgentAudioTracks.isEmpty then (.ok (), [.listParticipants 1])
      else
        (.ok (), MuteOp.listParticipants 1 :: agents.map fun a =>
          MuteOp.updateSubscriptions a.identity nonAgentAudioTracks (!mute)
            (env.subOk a.identity))

/-- Embedding of `updateIosSubscriptionsToAgent`: list participants
(phase 2); if no real-user participant or no agent audio track exists,
return quietly; otherwise attempt one `updateSubscriptions` RPC per
real user (per-user failures are caught and logged).  Only a failed
`listParticipants` propagates as an error. -/
def updateIosSubscriptionsToAgent (env : MuteEnv) (mute : Bool) :
    Except Unit Unit × List MuteOp :=
  match env.list2 with
  | none => (.error (), [.listParticipants 2])
  | some participants =>
    let iosUsers := participants.filter fun p =>
      !(isAgentId p.identity) && !(isAdminId p.identity)
    if iosUsers.isEmpty then (.ok (), [.listParticipants 2])
    else
      let agentAudioTracks :=
        (participants.filter fun p => isAgentId p.identity).flatMap audioSids
      if agentAudioTracks.isEmpty then (.ok (), [.listParticipants 2])
      else
        (.ok (), MuteOp.listParticipants 2 :: iosUsers.map fun u =>
          MuteOp.updateSubscriptions u.identity agentAudioTracks (!mute)
            (env.subOk u.identity))

/-- Embedding of `sendDataToRoom`: attempt a reliable data message; a
failure propagates (the caller's catch rethrows). -/
def sendDataToRoom (env : MuteEnv) (msg : String) (dests : List String) :
    Except Unit Unit × List MuteOp :=
  ((if env.sendOk then .ok () else .error ()), [.sendData msg dests env.sendOk])

/-- Embedding of `updateRoomMetadata` writing the takeover JSON blob
(`takeover` flag plus `Date.now()` timestamp); a failure propagates. -/
def updateRoomMetadataTakeover (env : MuteEnv) (mute : Bool) :
    Except Unit Unit × List MuteOp :=
  ((if env.metaOk then .ok () else .error ()),
    [.updateRoomMetadata mute env.now env.metaOk])

/-- Embedding of `muteAgentInRoom`: list participants (phase 0); if no
agent participant is present, log a warning and return without any
subscription change; otherwise run the four steps in order — agent
subscriptions, real-user subscriptions, the targeted data message, the
metadata write — stopping (and rethrowing) at the first step that
throws. -/
def muteAgentInRoom (env : MuteEnv) (mute : Bool) :
    Except Unit Unit × List MuteOp :=
  match env.list0 with
  | none => (.error (), [.listParticipants 0])
  | some participants =>
    let agents := participants.filter fun p => isAgentId p.identity
    if agents.isEmpty then (.ok (), [.listParticipants 0, .warnNoAgents])
    else
      let s1 := updateAgentSubscriptions env mute
      match s1.1 with
      | .error _ => (.error (), MuteOp.listParticipants 0 :: s1.2)
      | .ok _ =>
        let s2 := updateIosSubscriptionsToAgent env mute
        match s2.1 with
        | .error _ => (.error (), MuteOp.listParticipants 0 :: (s1.2 ++ s2.2))
        | .ok _ =>
          let message := if mute then "takeover:start" else "takeover:end"
          let agentIdentities := agents.map fun a => a.identity
          let s3 := sendDataToRoom env message agentIdentities
          match s3.1 with
          | .error _ =>
            (.error (), MuteOp.listParticipants 0 :: (s1.2 ++ s2.2 ++ s3.2))
          | .ok _ =>
            let s4 := updateRoomMetadataTakeover env mute
            match s4.1 with
            | .error _ =>
              (.error (),
                MuteOp.listParticipants 0 :: (s1.2 ++ s2.2 ++ s3.2 ++ s4.2))
            | .ok _ =>
              (.ok (),
                MuteOp.listParticipants 0 :: (s1.2 ++ s2.2 ++ s3.2 ++ s4.2))

/-- Predicate selecting subscription-update attempts in a takeover trace. -/
def isSubscriptionOp : MuteOp → Bool
  | .updateSubscriptions _ _ _ _ => true
  | _ => false

/-- Concrete takeover environment used to witness the redundant-signaling
theorem: one agent and one real user, every `updateSubscriptions` RPC
failing, data and metadata channels up. -/
def muteEnvW : MuteEnv where
  list0 := some [⟨"agent-voice", [⟨"TR_A", 1⟩]⟩, ⟨"kakao_5", [⟨"TR_U", 1⟩]⟩]
  list1 := some [⟨"agent-voice", [⟨"TR_A", 1⟩]⟩, ⟨"kakao_5", [⟨"TR_U", 1⟩]⟩]
  list2 := some [⟨"agent-voice", [⟨"TR_A", 1⟩]⟩, ⟨"kakao_5", [⟨"TR_U", 1⟩]⟩]
  subOk := fun _ => false
  sendOk := true
  metaOk := true
  now := 1700000000000

/-- Concrete takeover environment used to witness the zero-agent theorem:
a room holding only an operator and a real user. -/
def muteEnvNoAgentW : MuteEnv where
  list0 := some [⟨"admin_1", []⟩, ⟨"kakao_5", [⟨"TR_U", 1⟩]⟩]
  list1 := some []
  list2 := some []
  subOk := fun _ => true
  sendOk := true
  metaOk := true
  now := 0

/-! ## Token issuer: `RtcTokenService.issueToken`

The service resolves the identity from device push tokens (VOIP before
APNs, first DB hit wins), enforces the authentication contract, performs
the device-initiated side effects (room member upsert, `room-created`
event, agent dispatch, best-effort call auto-creation, device upsert) and
mints the room token.  The database, `randomUUID` and JWT minting are
oracles in `RtcEnv`; every outbound call is recorded in the returned
trace. -/

/-- The token-request role, as the controller's validated union type. -/
inductive Role where
  | host
  | viewer
  | observer
deriving DecidableEq, Repr

/-- String form of a role (as stored in the room-member upsert). -/
def roleStr : Role → String
  | .host => "host"
  | .viewer => "viewer"
  | .observer => "observer"

/-- A database user row, with the fields the RTC layer reads.  Both
`display_name` and `nickname` are nullable columns. -/
structure DUser where
  id : String
  identity : String
  display_name : Option String := none
  nickname : Option String := none
deriving DecidableEq, Repr

/-- The optional device info forwarded by the controller (fields already
trimmed there; absent fields are `none`). -/
structure DeviceInfo where
  apnsToken : Option String := none
  voipToken : Option String := none
  platform : Option String := none
  env : Option String := none
  supportsCallKit : Option Bool := none
deriving DecidableEq, Repr

/-- The parameters of `RtcTokenService.issueToken`. -/
structure RtcParams where
  roomName : String
  identity : String
  name : String
  role : Role
  device : Option DeviceInfo := none
  isAuthenticated : Bool := false
deriving DecidableEq, Repr

/-- The only exception `RtcTokenService.issueToken` itself throws: the
generic `Error` with the Korean "login required" message raised when an
unauthenticated identity has no user row.  It is a plain JavaScript
`Error`, not a NestJS `HttpException`. -/
inductive SvcError where
  | loginRequired
deriving DecidableEq, Repr

/-- The result object of `RtcTokenService.issueToken`. -/
structure RtcTokenResult where
  livekitUrl : String
  roomName : String
  token : String
  expiresAt : String
  identity : String
  name : String
  role : Role
  callId : Option String := none
deriving DecidableEq, Repr

/-- Oracles for one `issueToken` call: the `randomUUID` draw, the
database lookup/upsert collaborators, the outcome of the best-effort
call auto-creation (`none` models `createCall` throwing, which the code
catches), the agent-dispatch outcome (always swallowed), and the opaque
minted JWT, public URL and expiry string. -/
structure RtcEnv where
  uuid : String
  findUserByDeviceToken : String → String → Option DUser
  findUserByIdentity : String → Option DUser
  upsertUserResult : String → String → DUser
  createCallResult : Option String
  dispatchOk : Bool
  jwt : String
  livekitPublicUrl : String
  expiresAt : String

/-- One outbound collaborator call attempted by `issueToken`. -/
inductive RtcOp where
  | findByToken (tokenType token : String)
  | findByIdentity (ident : String)
  | upsertUser (ident nm : String)
  | upsertRoomMember (room userId roleName : String)
  | emitRoomEvent (ty room ident nm : String)
  | dispatchAgent (room : String) (ok : Bool)
  | createCall (caller callee room : String)
  | upsertDevice (ident : String)
deriving DecidableEq, Repr

/-- Device-initiated test: `!!(device?.apnsToken || device?.voipToken)`
with JavaScript truthiness, so an absent device or empty-string tokens
are not device-initiated. -/
def isIosUser (device : Option DeviceInfo) : Bool :=
  match device with
  | none => false
  | some d => strTruthy d.apnsToken || strTruthy d.voipToken

/-- The candidate list built before the device-token lookup loop: the
VOIP token first when truthy, then the APNs token when truthy, each
trimmed. -/
def deviceCandidates (d : DeviceInfo) : List (String × String) :=
  (if strTruthy d.voipToken then [("voip", tsTrim (d.voipToken.getD ""))] else [])
    ++ (if strTruthy d.apnsToken then [("apns", tsTrim (d.apnsToken.getD ""))] else [])

/-- The lookup loop over the candidates: skip blank tokens, query the DB
per candidate, and on the first hit override the identity and take the
user's `display_name` when non-null (keeping the running name otherwise),
then stop.  Returns the resolved identity, name and the lookups
attempted. -/
def resolveByTokens (env : RtcEnv) :
    List (String × String) → String → String → String × String × List RtcOp
  | [], ident, nm => (ident, nm, [])
  | (tokenType, token) :: rest, ident, nm =>
    if token == "" then resolveByTokens env rest ident nm
    else
      match env.findUserByDeviceToken tokenType token with
      | some existing =>
        (existing.identity, existing.display_name.getD nm,
          [RtcOp.findByToken tokenType token])
      | none =>
        let r := resolveByTokens env rest ident nm
        (r.1, r.2.1, RtcOp.findByToken tokenType token :: r.2.2)

/-- Identity/name resolution for a request: run the candidate loop when
device info is present, else keep the caller-supplied identity and name. -/
def resolveIdentityName (env : RtcEnv) (params : RtcParams) :
    String × String × List RtcOp :=
  match params.device with
  | none => (params.identity, params.name, [])
  | some d => resolveByTokens env (deviceCandidates d) params.identity params.name

/-- Embedding of `RtcTokenService.issueToken`: fresh `room-` name for
device-initiated requests, device-token identity resolution, the
authentication contract (upsert when authenticated, lookup-or-throw when
not), the device-initiated side effects, the device upsert, and the
result object.  The second component is the trace of collaborator calls
attempted, in program order. -/
def issueToken (env : RtcEnv) (params : RtcParams) :
    Except SvcError RtcTokenResult × List RtcOp :=
  let isIos := isIosUser params.device
  let roomName := if isIos then "room-" ++ env.uuid else params.roomName
  let res := resolveIdentityName env params
  let identity := res.1
  let name := res.2.1
  let tr1 := res.2.2
  if params.isAuthenticated then
    let user := env.upsertUserResult identity name
    issueTokenTail env params isIos roomName identity name user
      (tr1 ++ [RtcOp.upsertUser identity name])
  else
    match env.findUserByIdentity identity with
    | none => (.error .loginRequired, tr1 ++ [RtcOp.findByIdentity identity])
    | some user =>
      issueTokenTail env params isIos roomName identity name user
        (tr1 ++ [RtcOp.findByIdentity identity])
where
  /-- The part of `issueToken` after the authentication step: the
  device-initiated side effects, the device registration, and the token
  result. -/
  issueTokenTail (env : RtcEnv) (params : RtcParams) (isIos : Bool)
      (roomName identity name : String) (user : DUser) (trAcc : List RtcOp) :
      Except SvcError RtcTokenResult × List RtcOp :=
    let tr3 :=
      if isIos then
        [RtcOp.upsertRoomMember roomName user.id (roleStr params.role),
         RtcOp.emitRoomEvent "room-created" roomName identity name,
         RtcOp.dispatchAgent roomName env.dispatchOk,
         RtcOp.createCall "agent-auto" identity roomName]
      else []
    let callId := if isIos then env.createCallResult else none
    let tr4 := if isIos then [RtcOp.upsertDevice identity] else []
    (.ok { livekitUrl := env.livekitPublicUrl
           roomName := roomName
           token := env.jwt
           expiresAt := env.expiresAt
           identity := identity
           name := name
           role := params.role
           callId := callId },
      trAcc ++ tr3 ++ tr4)

/-- Predicate selecting the ops that create-or-update a user row. -/
def createsUser : RtcOp → Bool
  | .upsertUser _ _ => true
  | _ => false

/-- Modelled from the spec: the resolution order of §4.1 as a standalone
definition written from the spec's words (as amended): query the DB by
the VOIP token when one is present and non-blank; else by the APNs token
when present and non-blank; the first hit supplies the identity, and the
display name when it has one (the caller-supplied name is kept when the
matched row's `display_name` is null); with no hit, fall back to the
caller-supplied identity and name. -/
def specOrderResolve (env : RtcEnv) (params : RtcParams) : String × String :=
  let lookupBy : String → Option String → Option DUser := fun tokenType tok =>
    if strTruthy tok && !(tsTrim (tok.getD "") == "") then
      env.findUserByDeviceToken tokenType (tsTrim (tok.getD ""))
    else none
  match params.device with
  | none => (params.identity, params.name)
  | some d =>
    match lookupBy "voip" d.voipToken with
    | some u => (u.identity, u.display_name.getD params.name)
    | none =>
      match lookupBy "apns" d.apnsToken with
      | some u => (u.identity, u.display_name.getD params.name)
      | none => (params.identity, params.name)

/-! ## HTTP layer: `RtcController.issueToken`

The controller resolves the bearer credential through three verifiers
(Kakao access token, then admin access token, then anonymous API token),
enforces `authRequired`, validates `roomName`/`identity`/`role` and the
optional `livekitUrl` override, and delegates to the service.  Verifier
and DB collaborators are oracles in `AuthEnv`. -/

/-- A verified Kakao access-token payload (`sub` is the user id). -/
structure KakaoPayload where
  sub : String
deriving DecidableEq, Repr

/-- A verified admin access-token payload (`sub` is the admin id). -/
structure AdminPayload where
  sub : String
deriving DecidableEq, Repr

/-- An admin row, with the fields the controller reads. -/
structure AdminRec where
  id : String
  is_active : Bool
  name : Option String := none
  email : String
deriving DecidableEq, Repr

/-- A verified anonymous API-token payload. -/
structure ApiPayload where
  identity : String
  displayName : Option String := none
deriving DecidableEq, Repr

/-- Oracles for the controller's authentication step.  A `none` from
`verifyAdminAccessToken` or `verifyApiToken` models the verifier
throwing; a `none` from `verifyAccessToken` models it returning null. -/
structure AuthEnv where
  authRequired : Bool
  verifyAccessToken : String → Option KakaoPayload
  findUserById : String → Option DUser
  verifyAdminAccessToken : String → Option AdminPayload
  findAdminById : String → Option AdminRec
  verifyApiToken : String → Option ApiPayload

/-- An error escaping the controller: either a NestJS `HttpException`
thrown with an explicit status, or a non-HTTP error propagated from the
service layer. -/
inductive CtrlError where
  | http (status : Nat) (msg : String)
  | svc (e : SvcError)
deriving DecidableEq, Repr

/-- Models the NestJS exception layer the controller sits under (framework
behaviour, not repository code): an `HttpException` is sent with its own
status code, while any other uncaught error becomes a 500 Internal Server
Error response. -/
def nestStatusOf : CtrlError → Nat
  | .http status _ => status
  | .svc _ => 500

/-- The admin branch of the controller's try/catch ladder: verify the
admin token (a throw falls through), load the admin row, and accept only
an existing active admin, yielding the `admin_`-prefixed identity and
`name ?? email` as display name. -/
def adminAuthAttempt (aenv : AuthEnv) (b : String) :
    Option (String × Option String) :=
  match aenv.verifyAdminAccessToken b with
  | none => none
  | some payload =>
    match aenv.findAdminById payload.sub with
    | some admin =>
      if admin.is_active then
        some ("admin_" ++ admin.id, some (admin.name.getD admin.email))
      else none
    | none => none

/-- The controller's credential resolution: no bearer means 401 when auth
is required; a bearer is tried as a Kakao token (a verified Kakao token
whose user row is missing resolves to no context, with no fallback), then
as an admin token, then as an anonymous API token, and only when all
three fail does `authRequired` yield 401. -/
def resolveAuthContext (aenv : AuthEnv) (bearer : Option String) :
    Except CtrlError (Option (String × Option String)) :=
  match bearer with
  | none =>
    if aenv.authRequired then .error (.http 401 "Unauthorized") else .ok none
  | some b =>
    match aenv.verifyAccessToken b with
    | some payload =>
      match aenv.findUserById payload.sub with
      | some u => .ok (some (u.identity, u.nickname <|> u.display_name))
      | none => .ok none
    | none =>
      match adminAuthAttempt aenv b with
      | some ctx => .ok (some ctx)
      | none =>
        match aenv.verifyApiToken b with
        | some payload => .ok (some (payload.identity, payload.displayName))
        | none =>
          if aenv.authRequired then .error (.http 401 "Unauthorized")
          else .ok none

/-- Bearer extraction from the `authorization` header: the header (empty
when absent) must start with `Bearer ` and the rest is the credential. -/
def bearerOf (authorization : Option String) : Option String :=
  let authHeader := authorization.getD ""
  if tsStartsWith authHeader "Bearer " then some (tsDropChars authHeader 7)
  else none

/-- The raw JSON body of `POST /v1/rtc/token`; absent fields are `none`. -/
structure CtrlBody where
  roomName : Option String := none
  identity : Option String := none
  name : Option String := none
  role : Option String := none
  livekitUrl : Option String := none
  apnsToken : Option String := none
  voipToken : Option String := none
  platform : Option String := none
  env : Option String := none
  supportsCallKit : Option Bool := none
deriving DecidableEq, Repr

/-- Embedding of `s.replace(/\/+$/, "")`: strip every trailing slash. -/
def stripTrailingSlashes (s : String) : String :=
  String.mk ((s.toList.reverse.dropWhile (fun c => c == '/')).reverse)

/-- Embedding of `RtcController.normalizeLivekitUrl`: falsy input yields
nothing; a trimmed value must start with `wss://` or `ws://` and loses
its trailing slashes. -/
def normalizeLivekitUrl (url : Option String) : Option String :=
  match url with
  | none => none
  | some u =>
    if u == "" then none
    else
      let trimmed := tsTrim u
      if !(tsStartsWith trimmed "wss://") && !(tsStartsWith trimmed "ws://")
      then none
      else some (stripTrailingSlashes trimmed)

/-- Parse of the already-validated role string. -/
def roleOfString (s : String) : Role :=
  if s == "host" then .host else if s == "observer" then .observer else .viewer

/-- No valid credential is presented: either no bearer token at all, or a
bearer rejected by all three verifiers (Kakao, admin, anonymous API). -/
def noValidCredential (aenv : AuthEnv) : Option String → Prop
  | none => True
  | some b =>
    aenv.verifyAccessToken b = none ∧ adminAuthAttempt aenv b = none
      ∧ aenv.verifyApiToken b = none

/-- Embedding of `RtcController.issueToken`: bearer extraction, credential
resolution, the 400-validation of `roomName`, merged `identity`, `role`
(missing role defaults to `viewer`) and the optional `livekitUrl`
override, construction of the service parameters (device info only when
some device field is truthy), and delegation to the service with the URL
override applied to the response. -/
def ctrlIssueToken (aenv : AuthEnv) (senv : RtcEnv) (authorization : Option String)
    (body : CtrlBody) : Except CtrlError RtcTokenResult :=
  match resolveAuthContext aenv (bearerOf authorization) with
  | .error e => .error e
  | .ok authCtx =>
    let authIdentity : Option String := authCtx.map fun c => c.1
    let authName : Option String := authCtx.bind fun c => c.2
    let roomNameOpt : Option String := body.roomName.map tsTrim
    if !(strTruthy roomNameOpt) then .error (.http 400 "roomName is required")
    else
      let roomName := roomNameOpt.getD ""
      let identityOpt : Option String := (authIdentity <|> body.identity).map tsTrim
      if !(strTruthy identityOpt) then .error (.http 400 "identity is required")
      else
        let identity := identityOpt.getD ""
        let name := tsTrim ((authName <|> body.name).getD identity)
        let roleRaw := body.role.getD "viewer"
        if !(["host", "viewer", "observer"].contains roleRaw) then
          .error (.http 400 "invalid role")
        else
          let livekitUrlOverride := normalizeLivekitUrl body.livekitUrl
          if strTruthy body.livekitUrl && livekitUrlOverride.isNone then
            .error (.http 400 "invalid livekitUrl")
          else
            let device : Option DeviceInfo :=
              if strTruthy body.apnsToken || strTruthy body.voipToken
                  || strTruthy body.platform || strTruthy body.env
                  || body.supportsCallKit.isSome then
                some { apnsToken := body.apnsToken.map tsTrim
                       voipToken := body.voipToken.map tsTrim
                       platform := body.platform.map tsTrim
                       env := body.env
                       supportsCallKit := body.supportsCallKit }
              else none
            let params : RtcParams :=
              { roomName := roomName, identity := identity, name := name
                role := roleOfString roleRaw, device := device
                isAuthenticated := authIdentity.isSome }
            match (issueToken senv params).1 with
            | .error e => .error (.svc e)
            | .ok rtcData =>
              .ok { rtcData with
                      livekitUrl := livekitUrlOverride.getD rtcData.livekitUrl }

/-! ## Webhook event processor: `LiveKitWebhookController.handleWebhook`

The handler parses the body without signature verification (the
`authorization` header is never read), re-emits lifecycle events for the
three known event kinds, schedules the deferred per-room reap on
`participant_left` and the deferred analysis task on `room_finished`, and
acknowledges with `{success: true}`; a falsy body is rejected with
HTTP 400. -/

/-- A participant record inside a webhook event envelope. -/
structure WhParticipant where
  identity : String
  name : Option String := none
deriving DecidableEq, Repr

/-- A room record inside a webhook event envelope. -/
structure WhRoom where
  name : String
deriving DecidableEq, Repr

/-- A truthy webhook event envelope; `event`, `room` and `participant`
may each be absent. -/
structure WhEvent where
  event : Option String := none
  room : Option WhRoom := none
  participant : Option WhParticipant := none
deriving DecidableEq, Repr

/-- A lifecycle event emitted to `EventsService.emitRoomEvent`. -/
structure RoomEvent where
  type : String
  roomName : String
  identity : Option String := none
  name : Option String := none
deriving DecidableEq, Repr

/-- An observable side effect of one webhook delivery: a lifecycle event
emission, or a deferred task scheduled via `setImmediate` (the scoped
room reap, or the `room_finished` analysis task). -/
inductive WhEffect where
  | emit (e : RoomEvent)
  | scheduleReap (room : String)
  | scheduleFinishTask (room : String)
deriving DecidableEq, Repr

/-- The webhook acknowledgement body. -/
structure WhResp where
  success : Bool
deriving DecidableEq, Repr

/-- Embedding of `participant.name || participant.identity` (JavaScript
truthiness: an absent or empty name falls back to the identity). -/
def effectiveName (p : WhParticipant) : String :=
  match p.name with
  | some n => if n == "" then p.identity else n
  | none => p.identity

/-- Embedding of `handleWebhook`: a falsy body throws and is answered
with HTTP 400; otherwise the three known event kinds produce their
lifecycle emissions and deferred tasks (each guarded by the presence of
the `participant`/`room` fields), every other event kind produces no
effect, and the response is `{success: true}`.  The `authorization`
header parameter is bound but never read, exactly as in the source. -/
def handleWebhook (body : Option WhEvent) (authorization : Option String) :
    Except Nat WhResp × List WhEffect :=
  match body with
  | none => (.error 400, [])
  | some event =>
    let eff1 :=
      if event.event == some "participant_joined" then
        match event.participant, event.room with
        | some p, some room =>
          [WhEffect.emit { type := "participant-joined", roomName := room.name
                           identity := some p.identity
                           name := some (effectiveName p) }]
        | _, _ => []
      else []
    let eff2 :=
      if event.event == some "participant_left" then
        match event.participant, event.room with
        | some p, some room =>
          [WhEffect.emit { type := "participant-left", roomName := room.name
                           identity := some p.identity
                           name := some (effectiveName p) },
           WhEffect.scheduleReap room.name]
        | _, _ => []
      else []
    let eff3 :=
      if event.event == some "room_finished" then
        match event.room with
        | some room =>
          [WhEffect.emit { type := "room-updated", roomName := room.name },
           WhEffect.scheduleFinishTask room.name]
        | none => []
      else []
    (.ok { success := true }, eff1 ++ eff2 ++ eff3)

/-! ## Deferred `room_finished` analysis task

The task scheduled by `handleWebhook` for `room_finished`: look up the
call context by room name, and when a call id exists, mark the call
`ended`, check for an existing analysis summary, and only when none
exists invoke the analysis provider (which records a summary on
success). -/

/-- The DB state the deferred task reads and writes: the call id
associated with each room (if any) and the set of call ids that already
have an analysis summary. -/
structure WhDb where
  callByRoom : String → Option String
  summaries : List String

/-- The world the deferred task acts on: the DB state plus a counter of
analysis-provider invocations. -/
structure WhWorld where
  db : WhDb
  analyzeCount : Nat

/-- One collaborator call performed by the deferred analysis task. -/
inductive FinOp where
  | getCallContext (room : String)
  | updateCallState (callId st : String)
  | getCallSummary (callId : String)
  | analyzeCall (callId : String)
deriving DecidableEq, Repr

/-- Predicate selecting call-state mutations in a task trace. -/
def mutatesCallState : FinOp → Bool
  | .updateCallState _ _ => true
  | _ => false

/-- Predicate selecting analysis-provider invocations in a task trace. -/
def isAnalyzeOp : FinOp → Bool
  | .analyzeCall _ => true
  | _ => false

/-- Embedding of the deferred `room_finished` task body: no call context
means log-and-stop; otherwise transition the call to `ended`, stop if a
summary already exists, else invoke the analysis provider
(`analysisOk` is the provider outcome; success stores a summary for the
call, as `AiService.analyzeCall` does via `createCallSummary`). -/
def roomFinishedTask (analysisOk : Bool) (w : WhWorld) (room : String) :
    WhWorld × List FinOp :=
  match w.db.callByRoom room with
  | none => (w, [.getCallContext room])
  | some callId =>
    let ops := [FinOp.getCallContext room,
                FinOp.updateCallState callId "ended",
                FinOp.getCallSummary callId]
    if w.db.summaries.contains callId then (w, ops)
    else
      ({ db := { callByRoom := w.db.callByRoom
                 summaries := if analysisOk then callId :: w.db.summaries
                              else w.db.summaries }
         analyzeCount := w.analyzeCount + 1 },
        ops ++ [FinOp.analyzeCall callId])

/-! ## Concrete environments for witnesses and counterexamples -/

/-- A database user row used by the witness environments. -/
def userW : DUser := { id := "u7", identity := "kakao_7" }

/-- Witness RTC environment: no device-token match, every identity known,
call auto-creation succeeding, agent dispatch failing. -/
def rtcEnvW : RtcEnv where
  uuid := "uuid-1"
  findUserByDeviceToken := fun _ _ => none
  findUserByIdentity := fun _ => some userW
  upsertUserResult := fun i n => { id := "u1", identity := i, display_name := some n }
  createCallResult := some "call-1"
  dispatchOk := false
  jwt := "jwt-1"
  livekitPublicUrl := "wss://lk.example"
  expiresAt := "2026-01-01T00:00:00.000Z"

/-- Witness device-initiated request: VOIP token present, with a
caller-supplied room-name hint that the service must ignore. -/
def rtcParamsIosW : RtcParams where
  roomName := "my-room"
  identity := "kakao_7"
  name := "Caller"
  role := .viewer
  device := some { voipToken := some "VT1" }
  isAuthenticated := true

/-- RTC environment of the device-lookup counterexample: the VOIP token
`VT9` matches a user whose `display_name` is null. -/
def rtcEnvC2 : RtcEnv where
  uuid := "uuid-2"
  findUserByDeviceToken := fun tokenType token =>
    if tokenType == "voip" && token == "VT9" then
      some { id := "u9", identity := "kakao_9" }
    else none
  findUserByIdentity := fun _ => none
  upsertUserResult := fun i n => { id := "u9", identity := i, display_name := some n }
  createCallResult := none
  dispatchOk := true
  jwt := "jwt-2"
  livekitPublicUrl := "wss://lk.example"
  expiresAt := "e2"

/-- Request of the device-lookup counterexample: a VOIP token matching a
`display_name`-less user, with a caller-supplied display name. -/
def rtcParamsC2 : RtcParams where
  roomName := "hint-room"
  identity := "stale-caller-identity"
  name := "CallerName"
  role := .viewer
  device := some { voipToken := some "VT9" }
  isAuthenticated := true

/-- RTC environment of the authentication-contract counterexample: the
database holds no user at all. -/
def rtcEnvC5 : RtcEnv where
  uuid := "uuid-5"
  findUserByDeviceToken := fun _ _ => none
  findUserByIdentity := fun _ => none
  upsertUserResult := fun i n => { id := "u5", identity := i, display_name := some n }
  createCallResult := none
  dispatchOk := true
  jwt := "jwt-5"
  livekitPublicUrl := "wss://lk.example"
  expiresAt := "e5"

/-- Controller auth environment with `authRequired` off and every
verifier rejecting. -/
def aenvOpen : AuthEnv where
  authRequired := false
  verifyAccessToken := fun _ => none
  findUserById := fun _ => none
  verifyAdminAccessToken := fun _ => none
  findAdminById := fun _ => none
  verifyApiToken := fun _ => none

/-- Controller auth environment with `authRequired` on and every verifier
rejecting. -/
def aenvRequired : AuthEnv :=
  { aenvOpen with authRequired := true }

/-- Body of the authentication-contract counterexample: a valid room name
and an identity with no user row, sent with no credential. -/
def bodyC5 : CtrlBody := { roomName := some "room-5", identity := some "kakao_5" }

/-- RTC environment for the endpoint-validation claim: lookups succeed. -/
def rtcEnvC9 : RtcEnv where
  uuid := "uuid-9"
  findUserByDeviceToken := fun _ _ => none
  findUserByIdentity := fun _ => some userW
  upsertUserResult := fun i n => { id := "u9c", identity := i, display_name := some n }
  createCallResult := none
  dispatchOk := true
  jwt := "jwt-9"
  livekitPublicUrl := "wss://lk.example"
  expiresAt := "e9"

/-- Body of the endpoint-validation counterexample: valid `roomName` and
`identity` but no `role` field at all. -/
def bodyC9 : CtrlBody := { roomName := some "room-9", identity := some "kakao_7" }

/-- DB state for the analysis-idempotence witness: one room with a call
and no analysis summary yet. -/
def whDbW : WhDb where
  callByRoom := fun r => if r == "room-f" then some "call-f" else none
  summaries := []

/-- World for the analysis-idempotence witness. -/
def whWorldW : WhWorld := { db := whDbW, analyzeCount := 0 }

/-- Webhook envelope of an unknown event kind used by the
no-verification witness. -/
def whEventUnknownW : WhEvent :=
  { event := some "track_published", room := some { name := "room-x" } }

/-! ## Theorems -/

/-- Claim C3: for every live room whose participants all have operator
(`admin_`) or agent (`agent-`) prefixed identities — no real-user
participant — the reap pass attempts the removal of every remaining
participant, re-lists the room's participants after all removals, and
deletes the room exactly when the post-removal re-listing still shows no
real-user participant (classified from the identity string alone); when a
real user is observed on the re-list the room is left intact.  The
per-room scan embeds, in order, into the full `closeAdminOnlyRooms`
pass. -/
theorem closeAdminOnlyRooms_reaps_adminOnly_rooms
    (env : ReapEnv) (room : String)
    (hmem : room ∈ env.rooms)
    (hne : env.firstList room ≠ [])
    (hall : ∀ p ∈ env.firstList room, isRealUserId p.identity = false) :
    (∀ p ∈ env.firstList room,
      ReapOp.removeParticipant room p.identity (env.removeOk room p.identity)
        ∈ reapRoom env room)
    ∧ (∃ pre post,
        reapRoom env room = pre ++ ReapOp.listParticipants room 1 :: post
        ∧ (∀ p ∈ env.firstList room,
            ReapOp.removeParticipant room p.identity (env.removeOk room p.identity)
              ∈ pre)
        ∧ ∀ op ∈ post, isRemovalOf room op = false)
    ∧ ((ReapOp.deleteRoom room (env.deleteOk room) ∈ reapRoom env room)
        ↔ ∀ p ∈ env.secondList room, isRealUserId p.identity = false)
    ∧ ∃ pre post, closeAdminOnlyRooms env = pre ++ reapRoom env room ++ post := by
  have hempty : (env.firstList room).isEmpty = false := by
    simpa using hne
  have hany : ((env.firstList room).any fun p => isRealUserId p.identity) = false := by
    simp only [List.any_eq_false]
    intro p hp
    simp [hall p hp]
  have htr : reapRoom env room
      = [ReapOp.listParticipants room 0]
        ++ ((env.firstList room).map fun p =>
              ReapOp.removeParticipant room p.identity (env.removeOk room p.identity))
        ++ [ReapOp.listParticipants room 1]
        ++ (if !((env.secondList room).any fun p => isRealUserId p.identity) then
              [ReapOp.deleteRoom room (env.deleteOk room)]
            else []) := by
    simp [reapRoom, hempty, hany]
  refine ⟨?_, ?_, ?_, ?_⟩
  · intro p hp
    rw [htr]
    exact List.mem_append_left _ (List.mem_append_left _
      (List.mem_append_right _ (List.mem_map_of_mem _ hp)))
  · refine ⟨[ReapOp.listParticipants room 0]
        ++ ((env.firstList room).map fun p =>
              ReapOp.removeParticipant room p.identity (env.removeOk room p.identity)),
      (if !((env.secondList room).any fun p => isRealUserId p.identity) then
          [ReapOp.deleteRoom room (env.deleteOk room)]
        else []), ?_, ?_, ?_⟩
    · rw [htr]
      simp [List.append_assoc]
    · intro p hp
      exact List.mem_append_right _ (List.mem_map_of_mem _ hp)
    · intro op hop
      by_cases hc : ((env.secondList room).any fun p => isRealUserId p.identity)
      · simp [hc] at hop
      · simp only [hc, Bool.not_false, if_true, List.mem_singleton] at hop
        subst hop
        rfl
  · by_cases hc : ((env.secondList room).any fun p => isRealUserId p.identity)
    · apply iff_of_false
      · rw [htr]
        simp [hc, List.mem_append, List.mem_map]
      · intro hforall
        obtain ⟨x, hx, hpx⟩ := List.any_eq_true.mp hc
        exact absurd (hforall x hx) (by simp [hpx])
    · apply iff_of_true
      · rw [htr]
        simp [hc]
      · intro p hp
        have := List.any_eq_false.mp (by simpa using hc) p hp
        simpa using this
  · obtain ⟨s, t, hst⟩ := List.append_of_mem hmem
    refine ⟨s.flatMap (reapRoom env), t.flatMap (reapRoom env), ?_⟩
    simp [closeAdminOnlyRooms, hst, List.flatMap_append, List.flatMap_cons,
      List.append_assoc]

/-- Witness for the reaper theorem: in the concrete environment
`reapEnvW`, the pass attempts both removals and deletes the room (the
re-listing came back empty). -/
theorem closeAdminOnlyRooms_reaps_adminOnly_rooms_witness :
    ReapOp.removeParticipant "room-7" "admin_1" true ∈ reapRoom reapEnvW "room-7"
    ∧ ReapOp.removeParticipant "room-7" "agent-voice" true
        ∈ reapRoom reapEnvW "room-7"
    ∧ ReapOp.deleteRoom "room-7" true ∈ reapRoom reapEnvW "room-7" := by
  have h := closeAdminOnlyRooms_reaps_adminOnly_rooms reapEnvW "room-7"
    (by decide) (by decide) (by decide)
  exact ⟨h.1 ⟨"admin_1", []⟩ (by decide), h.1 ⟨"agent-voice", []⟩ (by decide),
    h.2.2.1.mpr (by decide)⟩

/-- Helper: `updateAgentSubscriptions` only throws when its own
`listParticipants` call does; per-agent RPC failures are swallowed. -/
theorem updateAgentSubscriptions_ok (env : MuteEnv) (mute : Bool)
    (h : env.list1.isSome = true) :
    (updateAgentSubscriptions env mute).1 = .ok () := by
  obtain ⟨l, hl⟩ := Option.isSome_iff_exists.mp h
  simp only [updateAgentSubscriptions, hl]
  split
  · rfl
  · split <;> rfl

/-- Helper: `updateIosSubscriptionsToAgent` only throws when its own
`listParticipants` call does; per-user RPC failures are swallowed. -/
theorem updateIosSubscriptionsToAgent_ok (env : MuteEnv) (mute : Bool)
    (h : env.list2.isSome = true) :
    (updateIosSubscriptionsToAgent env mute).1 = .ok () := by
  obtain ⟨l, hl⟩ := Option.isSome_iff_exists.mp h
  simp only [updateIosSubscriptionsToAgent, hl]
  split
  · rfl
  · split <;> rfl

/-- Claim C4: on a takeover toggle in a room with at least one agent
participant, with the participant listings and the data channel up, the
targeted `takeover:start`/`takeover:end` data message (channel 2) and the
takeover metadata write (channel 3) are both attempted, for every
behaviour of the subscription-control RPCs (channel 1) — the environment
quantifies over `subOk`, so even when every `updateSubscriptions` call
fails (each failure is caught per target), channels 2 and 3 are still
attempted, and channel 3 is attempted whatever the metadata outcome. -/
theorem muteAgentInRoom_channels_best_effort (env : MuteEnv) (mute : Bool)
    (ps : List LkParticipant)
    (h0 : env.list0 = some ps)
    (h1 : env.list1.isSome = true)
    (h2 : env.list2.isSome = true)
    (hag : (ps.filter fun p => isAgentId p.identity).isEmpty = false)
    (hsend : env.sendOk = true) :
    MuteOp.sendData (if mute then "takeover:start" else "takeover:end")
        ((ps.filter fun p => isAgentId p.identity).map fun a => a.identity) true
      ∈ (muteAgentInRoom env mute).2
    ∧ MuteOp.updateRoomMetadata mute env.now env.metaOk
      ∈ (muteAgentInRoom env mute).2 := by
  have h1ok := updateAgentSubscriptions_ok env mute h1
  have h2ok := updateIosSubscriptionsToAgent_ok env mute h2
  by_cases hm : env.metaOk <;>
    simp [muteAgentInRoom, h0, hag, h1ok, h2ok, hsend, hm, sendDataToRoom,
      updateRoomMetadataTakeover]

/-- Witness for the takeover-channels theorem: in `muteEnvW` every
subscription RPC fails, yet the data message to the agent and the
metadata write are both attempted. -/
theorem muteAgentInRoom_channels_best_effort_witness :
    MuteOp.sendData "takeover:start" ["agent-voice"] true
      ∈ (muteAgentInRoom muteEnvW true).2
    ∧ MuteOp.updateRoomMetadata true 1700000000000 true
      ∈ (muteAgentInRoom muteEnvW true).2 := by
  have h := muteAgentInRoom_channels_best_effort muteEnvW true
    [⟨"agent-voice", [⟨"TR_A", 1⟩]⟩, ⟨"kakao_5", [⟨"TR_U", 1⟩]⟩]
    rfl rfl rfl (by decide) rfl
  exact h

/-- Claim C8: a takeover toggle (either direction) on a room with zero
agent participants completes without throwing, logs the no-agents
warning and performs no subscription-update call at all. -/
theorem muteAgentInRoom_zero_agents (env : MuteEnv) (mute : Bool)
    (ps : List LkParticipant)
    (h0 : env.list0 = some ps)
    (hnoag : ∀ p ∈ ps, isAgentId p.identity = false) :
    muteAgentInRoom env mute
      = (.ok (), [.listParticipants 0, .warnNoAgents])
    ∧ ∀ op ∈ (muteAgentInRoom env mute).2, isSubscriptionOp op = false := by
  have hfil : (ps.filter fun p => isAgentId p.identity) = [] := by
    rw [List.filter_eq_nil_iff]
    intro p hp
    simp [hnoag p hp]
  have hmain : muteAgentInRoom env mute
      = (.ok (), [.listParticipants 0, .warnNoAgents]) := by
    simp [muteAgentInRoom, h0, hfil]
  refine ⟨hmain, ?_⟩
  rw [hmain]
  intro op hop
  simp only [List.mem_cons, List.not_mem_nil, or_false] at hop
  rcases hop with rfl | rfl <;> rfl

/-- Witness for the zero-agent takeover theorem: unmuting a room holding
only an operator and a real user is a no-op beyond the listing and the
warning. -/
theorem muteAgentInRoom_zero_agents_witness :
    muteAgentInRoom muteEnvNoAgentW false
      = (.ok (), [.listParticipants 0, .warnNoAgents])
    ∧ ∀ op ∈ (muteAgentInRoom muteEnvNoAgentW false).2,
        isSubscriptionOp op = false :=
  muteAgentInRoom_zero_agents muteEnvNoAgentW false
    [⟨"admin_1", []⟩, ⟨"kakao_5", [⟨"TR_U", 1⟩]⟩] rfl (by decide)

/-- Helper: the post-authentication tail of `issueToken` always returns
the token result built from its arguments. -/
theorem issueTokenTail_fst (env : RtcEnv) (params : RtcParams) (isIos : Bool)
    (roomName identity name : String) (user : DUser) (trAcc : List RtcOp) :
    (issueToken.issueTokenTail env params isIos roomName identity name user
        trAcc).1
      = .ok { livekitUrl := env.livekitPublicUrl, roomName := roomName
              token := env.jwt, expiresAt := env.expiresAt, identity := identity
              name := name, role := params.role
              callId := if isIos then env.createCallResult else none } := rfl

/-- Helper: shape of every successful `issueToken` result — the room name
follows the device-initiated policy, identity and name come from the
device-token resolution, and the call id mirrors the auto-creation
outcome. -/
theorem issueToken_ok_shape (env : RtcEnv) (params : RtcParams)
    (r : RtcTokenResult) (hok : (issueToken env params).1 = .ok r) :
    r = { livekitUrl := env.livekitPublicUrl
          roomName := if isIosUser params.device then "room-" ++ env.uuid
                      else params.roomName
          token := env.jwt
          expiresAt := env.expiresAt
          identity := (resolveIdentityName env params).1
          name := (resolveIdentityName env params).2.1
          role := params.role
          callId := if isIosUser params.device then env.createCallResult
                    else none } := by
  by_cases hA : params.isAuthenticated
  · simp only [issueToken, hA, if_true, issueTokenTail_fst, Except.ok.injEq] at hok
    exact hok.symm
  · rcases hf : env.findUserByIdentity (resolveIdentityName env params).1 with _ | u
    · simp only [issueToken, hA, if_false, hf, Bool.false_eq_true] at hok
      exact absurd hok (by simp)
    · simp only [issueToken, hA, if_false, hf, Bool.false_eq_true,
        issueTokenTail_fst, Except.ok.injEq] at hok
      exact hok.symm

/-- Claim C1: a successful token issuance returns the server-generated
`room-` plus fresh-UUID name for every device-initiated request — so it
differs from the caller-supplied room hint whenever the freshly drawn
UUID makes the generated name differ, which the freshness of `randomUUID`
guarantees — and returns the caller-supplied room name verbatim for every
non-device request. -/
theorem issueToken_roomName_policy (env : RtcEnv) (params : RtcParams)
    (r : RtcTokenResult) (hok : (issueToken env params).1 = .ok r) :
    (isIosUser params.device = true →
      r.roomName = "room-" ++ env.uuid
      ∧ ("room-" ++ env.uuid ≠ params.roomName → r.roomName ≠ params.roomName))
    ∧ (isIosUser params.device = false → r.roomName = params.roomName) := by
  have h := issueToken_ok_shape env params r hok
  subst h
  constructor
  · intro hIos
    refine ⟨by simp [hIos], ?_⟩
    intro hne
    simpa [hIos] using hne
  · intro hIos
    simp [hIos]

/-- Witness for the room-name policy theorem: a device-initiated request
with hint `my-room` receives `room-uuid-1`, and the same environment with
no device info returns the hint unchanged. -/
theorem issueToken_roomName_policy_witness :
    ({ livekitUrl := "wss://lk.example", roomName := "room-uuid-1"
       token := "jwt-1", expiresAt := "2026-01-01T00:00:00.000Z"
       identity := "kakao_7", name := "Caller", role := Role.viewer
       callId := some "call-1" } : RtcTokenResult).roomName = "room-uuid-1"
    ∧ ({ livekitUrl := "wss://lk.example", roomName := "room-uuid-1"
         token := "jwt-1", expiresAt := "2026-01-01T00:00:00.000Z"
         identity := "kakao_7", name := "Caller", role := Role.viewer
         callId := some "call-1" } : RtcTokenResult).roomName ≠ "my-room" := by
  have h := issueToken_roomName_policy rtcEnvW rtcParamsIosW
    { livekitUrl := "wss://lk.example", roomName := "room-uuid-1"
      token := "jwt-1", expiresAt := "2026-01-01T00:00:00.000Z"
      identity := "kakao_7", name := "Caller", role := Role.viewer
      callId := some "call-1" } (by rfl)
  exact ⟨(h.1 rfl).1, (h.1 rfl).2 (by decide)⟩

/-- Helper: the identity/name components of the lookup loop over the
APNs-only candidate tail. -/
theorem resolveByTokens_apnsOnly (env : RtcEnv) (d : DeviceInfo)
    (ident nm : String) :
    ((resolveByTokens env
        (if strTruthy d.apnsToken then [("apns", tsTrim (d.apnsToken.getD ""))]
         else []) ident nm).1,
      (resolveByTokens env
        (if strTruthy d.apnsToken then [("apns", tsTrim (d.apnsToken.getD ""))]
         else []) ident nm).2.1)
      = match (if strTruthy d.apnsToken
                  && !(tsTrim (d.apnsToken.getD "") == "") then
            env.findUserByDeviceToken "apns" (tsTrim (d.apnsToken.getD ""))
          else none) with
        | some u => (u.identity, u.display_name.getD nm)
        | none => (ident, nm) := by
  by_cases ha : strTruthy d.apnsToken
  · by_cases hat : tsTrim (d.apnsToken.getD "") == ""
    · simp [resolveByTokens, ha, hat]
    · cases hl : env.findUserByDeviceToken "apns" (tsTrim (d.apnsToken.getD "")) <;>
        simp [resolveByTokens, ha, hat, hl]
  · simp [resolveByTokens, ha]

/-- Helper (refinement): the code's device-token resolution computes
exactly the spec-side resolution order `specOrderResolve`. -/
theorem resolveIdentityName_eq_specOrder (env : RtcEnv) (params : RtcParams) :
    ((resolveIdentityName env params).1, (resolveIdentityName env params).2.1)
      = specOrderResolve env params := by
  cases hd : params.device with
  | none => simp [resolveIdentityName, specOrderResolve, hd]
  | some d =>
    simp only [resolveIdentityName, specOrderResolve, hd, deviceCandidates]
    by_cases hv : strTruthy d.voipToken
    · by_cases hvt : tsTrim (d.voipToken.getD "") == ""
      · simpa [resolveByTokens, hv, hvt] using
          resolveByTokens_apnsOnly env d params.identity params.name
      · cases hl : env.findUserByDeviceToken "voip" (tsTrim (d.voipToken.getD "")) with
        | some u => simp [resolveByTokens, hv, hvt, hl]
        | none =>
          simpa [resolveByTokens, hv, hvt, hl] using
            resolveByTokens_apnsOnly env d params.identity params.name
    · simpa [resolveByTokens, hv] using
        resolveByTokens_apnsOnly env d params.identity params.name

/-- Counterexample to claim C2 as stated: in `rtcEnvC2` the VOIP token
matches a user whose `display_name` is null; the returned identity is
overridden to `kakao_9` but the returned display name stays the
caller-supplied `CallerName` — the first DB match does not override the
returned display name when the matched row has none. -/
theorem issueToken_displayName_counterexample :
    rtcParamsC2.name = "CallerName"
    ∧ rtcEnvC2.findUserByDeviceToken "voip" "VT9"
        = some { id := "u9", identity := "kakao_9" }
    ∧ (issueToken rtcEnvC2 rtcParamsC2).1
        = .ok { livekitUrl := "wss://lk.example", roomName := "room-uuid-2"
                token := "jwt-2", expiresAt := "e2", identity := "kakao_9"
                name := "CallerName", role := Role.viewer, callId := none } :=
  ⟨rfl, rfl, rfl⟩

/-- Claim C2 (amended): every successful issuance resolves identity and
display name by the fixed order VOIP lookup, then APNs lookup, then the
caller-supplied values; the first DB match always overrides the returned
identity, and overrides the returned display name exactly when the
matched row's `display_name` is non-null (the caller-supplied name is
kept otherwise); in particular a VOIP match forces the returned identity
to the matched user's identity, regardless of the caller-supplied
identity. -/
theorem issueToken_resolution_order (env : RtcEnv) (params : RtcParams)
    (r : RtcTokenResult) (hok : (issueToken env params).1 = .ok r) :
    r.identity = (specOrderResolve env params).1
    ∧ r.name = (specOrderResolve env params).2
    ∧ ∀ d u, params.device = some d →
        strTruthy d.voipToken = true →
        tsTrim (d.voipToken.getD "") ≠ "" →
        env.findUserByDeviceToken "voip" (tsTrim (d.voipToken.getD "")) = some u →
        r.identity = u.identity := by
  have hshape := issueToken_ok_shape env params r hok
  have hres := resolveIdentityName_eq_specOrder env params
  have hid : r.identity = (specOrderResolve env params).1 := by
    rw [hshape]
    exact congrArg Prod.fst hres.symm ▸ rfl
  refine ⟨?_, ?_, ?_⟩
  · exact hid
  · rw [hshape]
    have := congrArg Prod.snd hres
    simpa using this
  · intro d u hd hv hvt hl
    have hspec : (specOrderResolve env params).1 = u.identity := by
      simp [specOrderResolve, hd, hv, hvt, hl]
    rw [hid, hspec]

/-- Witness for the amended resolution-order theorem, at the concrete
environment of the counterexample: the VOIP match drives the returned
identity. -/
theorem issueToken_resolution_order_witness :
    ({ livekitUrl := "wss://lk.example", roomName := "room-uuid-2"
       token := "jwt-2", expiresAt := "e2", identity := "kakao_9"
       name := "CallerName", role := Role.viewer,
       callId := none } : RtcTokenResult).identity
      = (specOrderResolve rtcEnvC2 rtcParamsC2).1
    ∧ ({ livekitUrl := "wss://lk.example", roomName := "room-uuid-2"
         token := "jwt-2", expiresAt := "e2", identity := "kakao_9"
         name := "CallerName", role := Role.viewer,
         callId := none } : RtcTokenResult).name
      = (specOrderResolve rtcEnvC2 rtcParamsC2).2
    ∧ ∀ d u, rtcParamsC2.device = some d →
        strTruthy d.voipToken = true →
        tsTrim (d.voipToken.getD "") ≠ "" →
        rtcEnvC2.findUserByDeviceToken "voip" (tsTrim (d.voipToken.getD ""))
          = some u →
        ({ livekitUrl := "wss://lk.example", roomName := "room-uuid-2"
           token := "jwt-2", expiresAt := "e2", identity := "kakao_9"
           name := "CallerName", role := Role.viewer,
           callId := none } : RtcTokenResult).identity = u.identity :=
  issueToken_resolution_order rtcEnvC2 rtcParamsC2
    { livekitUrl := "wss://lk.example", roomName := "room-uuid-2"
      token := "jwt-2", expiresAt := "e2", identity := "kakao_9"
      name := "CallerName", role := Role.viewer, callId := none } rfl

/-- Helper: the device-token lookup loop never creates a user row. -/
theorem resolveByTokens_no_user_creation (env : RtcEnv)
    (cs : List (String × String)) (ident nm : String) :
    ∀ op ∈ (resolveByTokens env cs ident nm).2.2, createsUser op = false := by
  induction cs with
  | nil => simp [resolveByTokens]
  | cons c rest ih =>
    obtain ⟨tokenType, token⟩ := c
    by_cases ht : token == ""
    · simpa [resolveByTokens, ht] using ih
    · cases hl : env.findUserByDeviceToken tokenType token with
      | some u => simp [resolveByTokens, ht, hl, createsUser]
      | none =>
        intro op hop
        simp only [resolveByTokens, ht, hl, Bool.false_eq_true, if_false,
          List.mem_cons] at hop
        rcases hop with rfl | h
        · rfl
        · exact ih op h

/-- Helper: the identity-resolution step never creates a user row. -/
theorem resolveIdentityName_no_user_creation (env : RtcEnv) (params : RtcParams) :
    ∀ op ∈ (resolveIdentityName env params).2.2, createsUser op = false := by
  cases hd : params.device with
  | none => simp [resolveIdentityName, hd]
  | some d =>
    simpa [resolveIdentityName, hd] using
      resolveByTokens_no_user_creation env (deviceCandidates d)
        params.identity params.name

/-- Helper: the post-authentication tail adds no user-creating op beyond
its accumulated trace. -/
theorem issueTokenTail_no_user_creation (env : RtcEnv) (params : RtcParams)
    (isIos : Bool) (roomName identity name : String) (user : DUser)
    (trAcc : List RtcOp)
    (hacc : ∀ op ∈ trAcc, createsUser op = false) :
    ∀ op ∈ (issueToken.issueTokenTail env params isIos roomName identity name
        user trAcc).2, createsUser op = false := by
  intro op hop
  simp only [issueToken.issueTokenTail] at hop
  rcases List.mem_append.mp hop with hop | hop
  · rcases List.mem_append.mp hop with hop | hop
    · exact hacc op hop
    · by_cases hIos : isIos = true
      · simp only [hIos, if_true, List.mem_cons, List.not_mem_nil, or_false]
          at hop
        rcases hop with rfl | rfl | rfl | rfl <;> rfl
      · simp [hIos] at hop
  · by_cases hIos : isIos = true
    · simp only [hIos, if_true, List.mem_singleton] at hop
      subst hop
      rfl
    · simp [hIos] at hop

/-- Claim C5 (amended): for every issuance with `isAuthenticated = false`,
when the resolved identity has no user row, the call fails with the
generic login-required error — a plain `Error`, not an
`HttpException(401)`, surfaced by the framework's default exception layer
as a 500 Internal Server Error rather than Unauthorized — and no user
row is created; when the row exists, issuance succeeds, still without
creating any user row. -/
theorem issueToken_auth_contract (env : RtcEnv) (params : RtcParams)
    (hAuth : params.isAuthenticated = false) :
    (env.findUserByIdentity (resolveIdentityName env params).1 = none →
      (issueToken env params).1 = .error .loginRequired
      ∧ nestStatusOf (.svc .loginRequired) = 500
      ∧ ∀ op ∈ (issueToken env params).2, createsUser op = false)
    ∧ ∀ u, env.findUserByIdentity (resolveIdentityName env params).1 = some u →
      (∃ r, (issueToken env params).1 = .ok r)
      ∧ ∀ op ∈ (issueToken env params).2, createsUser op = false := by
  constructor
  · intro hn
    have htr : issueToken env params
        = (.error .loginRequired,
            (resolveIdentityName env params).2.2
              ++ [RtcOp.findByIdentity (resolveIdentityName env params).1]) := by
      simp [issueToken, hAuth, hn]
    refine ⟨by rw [htr], rfl, ?_⟩
    rw [htr]
    intro op hop
    rcases List.mem_append.mp hop with h | h
    · exact resolveIdentityName_no_user_creation env params op h
    · simp only [List.mem_singleton] at h
      subst h
      rfl
  · intro u hu
    have htr : issueToken env params
        = issueToken.issueTokenTail env params (isIosUser params.device)
            (if isIosUser params.device then "room-" ++ env.uuid
             else params.roomName)
            (resolveIdentityName env params).1
            (resolveIdentityName env params).2.1 u
            ((resolveIdentityName env params).2.2
              ++ [RtcOp.findByIdentity (resolveIdentityName env params).1]) := by
      simp [issueToken, hAuth, hu]
    refine ⟨⟨_, by rw [htr]; exact issueTokenTail_fst ..⟩, ?_⟩
    rw [htr]
    apply issueTokenTail_no_user_creation
    intro op hop
    rcases List.mem_append.mp hop with h | h
    · exact resolveIdentityName_no_user_creation env params op h
    · simp only [List.mem_singleton] at h
      subst h
      rfl

/-- Witness for the authentication-contract theorem: in `rtcEnvC5` (empty
user table) the unauthenticated request fails with the login-required
error and its trace creates no user; and in `rtcEnvW` (identity known)
the same unauthenticated request succeeds. -/
theorem issueToken_auth_contract_witness :
    ((issueToken rtcEnvC5
        { roomName := "room-5", identity := "kakao_5", name := "kakao_5"
          role := Role.viewer }).1 = .error .loginRequired
      ∧ nestStatusOf (.svc .loginRequired) = 500
      ∧ ∀ op ∈ (issueToken rtcEnvC5
          { roomName := "room-5", identity := "kakao_5", name := "kakao_5"
            role := Role.viewer }).2, createsUser op = false)
    ∧ ∃ r, (issueToken rtcEnvW
        { roomName := "room-5", identity := "kakao_7", name := "kakao_7"
          role := Role.viewer }).1 = .ok r := by
  constructor
  · exact (issueToken_auth_contract rtcEnvC5
      { roomName := "room-5", identity := "kakao_5", name := "kakao_5"
        role := Role.viewer } rfl).1 rfl
  · exact ((issueToken_auth_contract rtcEnvW
      { roomName := "room-5", identity := "kakao_7", name := "kakao_7"
        role := Role.viewer } rfl).2 userW rfl).1

/-- Claim C6: for every device-initiated issuance that passes the
authentication contract, the result is a success whatever the agent
dispatch outcome (`env.dispatchOk` is arbitrary: `dispatchVoiceAgent`
catches and logs its own failure) and whatever the call auto-creation
outcome (`env.createCallResult` is arbitrary: the `createCall` throw is
caught); the returned `callId` mirrors the creation outcome (omitted on
failure), and the dispatch, the call creation and the device upsert are
all attempted regardless of each other's outcome. -/
theorem issueToken_best_effort_side_effects (env : RtcEnv) (params : RtcParams)
    (hIos : isIosUser params.device = true)
    (hAuth : params.isAuthenticated = true
      ∨ ∃ u, env.findUserByIdentity (resolveIdentityName env params).1 = some u) :
    ∃ r, (issueToken env params).1 = .ok r
      ∧ r.callId = env.createCallResult
      ∧ r.token = env.jwt
      ∧ r.roomName = "room-" ++ env.uuid
      ∧ RtcOp.dispatchAgent ("room-" ++ env.uuid) env.dispatchOk
          ∈ (issueToken env params).2
      ∧ RtcOp.createCall "agent-auto" r.identity ("room-" ++ env.uuid)
          ∈ (issueToken env params).2
      ∧ RtcOp.upsertDevice r.identity ∈ (issueToken env params).2 := by
  have hbranch : ∃ user trAcc, issueToken env params
      = issueToken.issueTokenTail env params (isIosUser params.device)
          (if isIosUser params.device then "room-" ++ env.uuid
           else params.roomName)
          (resolveIdentityName env params).1
          (resolveIdentityName env params).2.1 user trAcc := by
    by_cases hA : params.isAuthenticated = true
    · exact ⟨env.upsertUserResult (resolveIdentityName env params).1
          (resolveIdentityName env params).2.1,
        (resolveIdentityName env params).2.2
          ++ [RtcOp.upsertUser (resolveIdentityName env params).1
                (resolveIdentityName env params).2.1],
        by simp [issueToken, hA]⟩
    · obtain ⟨u, hu⟩ :
          ∃ u, env.findUserByIdentity (resolveIdentityName env params).1
            = some u := by
        rcases hAuth with hA' | h
        · exact absurd hA' hA
        · exact h
      exact ⟨u, (resolveIdentityName env params).2.2
          ++ [RtcOp.findByIdentity (resolveIdentityName env params).1],
        by simp [issueToken, hA, hu]⟩
  obtain ⟨user, trAcc, htr⟩ := hbranch
  refine ⟨{ livekitUrl := env.livekitPublicUrl
            roomName := if isIosUser params.device then "room-" ++ env.uuid
                        else params.roomName
            token := env.jwt, expiresAt := env.expiresAt
            identity := (resolveIdentityName env params).1
            name := (resolveIdentityName env params).2.1
            role := params.role
            callId := if isIosUser params.device then env.createCallResult
                      else none },
    by rw [htr]; exact issueTokenTail_fst .., by simp [hIos], rfl,
    by simp [hIos], ?_, ?_, ?_⟩ <;>
  · rw [htr]
    simp [issueToken.issueTokenTail, hIos, List.mem_append]

/-- Witness for the best-effort side-effects theorem: in `rtcEnvW` the
agent dispatch fails (`dispatchOk = false`), yet issuance succeeds, the
call creation and the device upsert are attempted, and `callId` is the
created call. -/
theorem issueToken_best_effort_side_effects_witness :
    ∃ r, (issueToken rtcEnvW rtcParamsIosW).1 = .ok r
      ∧ r.callId = rtcEnvW.createCallResult
      ∧ r.token = rtcEnvW.jwt
      ∧ r.roomName = "room-" ++ rtcEnvW.uuid
      ∧ RtcOp.dispatchAgent ("room-" ++ rtcEnvW.uuid) rtcEnvW.dispatchOk
          ∈ (issueToken rtcEnvW rtcParamsIosW).2
      ∧ RtcOp.createCall "agent-auto" r.identity ("room-" ++ rtcEnvW.uuid)
          ∈ (issueToken rtcEnvW rtcParamsIosW).2
      ∧ RtcOp.upsertDevice r.identity ∈ (issueToken rtcEnvW rtcParamsIosW).2 :=
  issueToken_best_effort_side_effects rtcEnvW rtcParamsIosW rfl (Or.inl rfl)

/-- Helper: the credential-resolution step errors exactly when auth is
required and no valid credential is presented, and its only error is the
401 Unauthorized exception. -/
theorem resolveAuthContext_cases (aenv : AuthEnv) (bearer : Option String) :
    (resolveAuthContext aenv bearer = .error (.http 401 "Unauthorized")
      ↔ aenv.authRequired = true ∧ noValidCredential aenv bearer)
    ∧ ∀ e, resolveAuthContext aenv bearer = .error e
      → e = .http 401 "Unauthorized" := by
  cases bearer with
  | none =>
    by_cases hr : aenv.authRequired = true <;>
      simp [resolveAuthContext, hr, noValidCredential]
  | some b =>
    cases hk : aenv.verifyAccessToken b with
    | some p =>
      cases hfu : aenv.findUserById p.sub <;>
        simp [resolveAuthContext, hk, hfu, noValidCredential]
    | none =>
      cases hadm : adminAuthAttempt aenv b with
      | some ctx => simp [resolveAuthContext, hk, hadm, noValidCredential]
      | none =>
        cases hapi : aenv.verifyApiToken b with
        | some p => simp [resolveAuthContext, hk, hadm, hapi, noValidCredential]
        | none =>
          by_cases hr : aenv.authRequired = true <;>
            simp [resolveAuthContext, hk, hadm, hapi, noValidCredential, hr]

/-- Claim C9 (amended): the endpoint answers 401 Unauthorized exactly
when auth is required and no valid credential is presented; once the
credential step passes, a missing or blank `roomName` yields 400, then a
blank merged identity yields 400, then a supplied `role` outside
`host`/`viewer`/`observer` yields 400 — but a missing `role` defaults to
`viewer` and never produces the invalid-role 400. -/
theorem rtcEndpoint_validation (aenv : AuthEnv) (senv : RtcEnv)
    (authorization : Option String) (body : CtrlBody) :
    ((ctrlIssueToken aenv senv authorization body
        = .error (.http 401 "Unauthorized"))
      ↔ aenv.authRequired = true
        ∧ noValidCredential aenv (bearerOf authorization))
    ∧ ∀ ctx, resolveAuthContext aenv (bearerOf authorization) = .ok ctx →
        ((strTruthy (body.roomName.map tsTrim) = false →
            ctrlIssueToken aenv senv authorization body
              = .error (.http 400 "roomName is required"))
         ∧ (strTruthy (body.roomName.map tsTrim) = true →
            strTruthy (((ctx.map fun c => c.1) <|> body.identity).map tsTrim)
              = false →
            ctrlIssueToken aenv senv authorization body
              = .error (.http 400 "identity is required"))
         ∧ (strTruthy (body.roomName.map tsTrim) = true →
            strTruthy (((ctx.map fun c => c.1) <|> body.identity).map tsTrim)
              = true →
            (["host", "viewer", "observer"].contains (body.role.getD "viewer"))
              = false →
            ctrlIssueToken aenv senv authorization body
              = .error (.http 400 "invalid role"))
         ∧ (body.role = none →
            ctrlIssueToken aenv senv authorization body
              ≠ .error (.http 400 "invalid role"))) := by
  have hcases := resolveAuthContext_cases aenv (bearerOf authorization)
  constructor
  · constructor
    · intro h
      cases hres : resolveAuthContext aenv (bearerOf authorization) with
      | error e =>
        have he := hcases.2 e hres
        subst he
        exact hcases.1.mp hres
      | ok ctx =>
        exfalso
        simp only [ctrlIssueToken, hres] at h
        repeat' split at h
        all_goals simp at h
    · intro hreq
      have hres : resolveAuthContext aenv (bearerOf authorization)
          = .error (.http 401 "Unauthorized") := hcases.1.mpr hreq
      simp [ctrlIssueToken, hres]
  · intro ctx hres
    refine ⟨?_, ?_, ?_, ?_⟩
    · intro hrn
      simp [ctrlIssueToken, hres, hrn]
    · intro hrn hid
      simp [ctrlIssueToken, hres, hrn, hid]
    · intro hrn hid hrole
      simp only [ctrlIssueToken, hres, hrn, hid, hrole]
      simp
    · intro hnone h
      simp only [ctrlIssueToken, hres, hnone, Option.getD_none] at h
      repeat' split at h
      all_goals simp_all

/-- Counterexample to claim C9 as stated: a request whose `role` field is
missing entirely is not answered with HTTP 400 — the controller defaults
the role to `viewer` and issues the token successfully. -/
theorem rtcEndpoint_missing_role_counterexample :
    bodyC9.role = none
    ∧ ctrlIssueToken aenvOpen rtcEnvC9 none bodyC9
        = .ok { livekitUrl := "wss://lk.example", roomName := "room-9"
                token := "jwt-9", expiresAt := "e9", identity := "kakao_7"
                name := "kakao_7", role := Role.viewer, callId := none } :=
  ⟨rfl, rfl⟩

/-- Witness for the endpoint-validation theorem: with auth required and
no credential the response is 401, and with a missing `roomName` the
response is the roomName 400. -/
theorem rtcEndpoint_validation_witness :
    ctrlIssueToken aenvRequired rtcEnvC9 none bodyC9
      = .error (.http 401 "Unauthorized")
    ∧ ctrlIssueToken aenvOpen rtcEnvC9 none { roomName := none }
      = .error (.http 400 "roomName is required") := by
  constructor
  · apply (rtcEndpoint_validation aenvRequired rtcEnvC9 none bodyC9).1.mpr
    refine ⟨rfl, ?_⟩
    have hb : bearerOf none = none := by decide
    rw [hb]
    trivial
  · exact (((rtcEndpoint_validation aenvOpen rtcEnvC9 none
      { roomName := none }).2 none rfl).1 rfl)

/-- Counterexample to claim C5 as stated: the unauthenticated request for
an unknown identity fails with the service-level generic login-required
error, which is not an `HttpException` of any status — under the
framework's default exception layer it surfaces as 500, not as the
claimed 401 Unauthorized — though no user record is created. -/
theorem unauthenticated_unknown_identity_counterexample :
    ctrlIssueToken aenvOpen rtcEnvC5 none bodyC5 = .error (.svc .loginRequired)
    ∧ nestStatusOf (.svc .loginRequired) = 500
    ∧ (∀ st msg, CtrlError.svc SvcError.loginRequired ≠ CtrlError.http st msg)
    ∧ ∀ op ∈ (issueToken rtcEnvC5
        { roomName := "room-5", identity := "kakao_5", name := "kakao_5"
          role := Role.viewer }).2, createsUser op = false := by
  refine ⟨rfl, rfl, ?_, by decide⟩
  intro st msg h
  cases h

/-- Claim C7: the deferred `room_finished` task invokes the analysis
provider zero times when the call already has a summary (and leaves the
world unchanged); handling the event twice for the same room, the first
run producing a summary, invokes the provider exactly once in total; a
room with no matching call record produces no call-state mutation and no
analysis call; and in every run the summary check precedes any analysis
invocation in the trace. -/
theorem roomFinished_analysis_once (analysisOk : Bool) (w : WhWorld)
    (room : String) :
    (∀ callId, w.db.callByRoom room = some callId →
      w.db.summaries.contains callId = true →
      (∀ op ∈ (roomFinishedTask analysisOk w room).2, isAnalyzeOp op = false)
      ∧ (roomFinishedTask analysisOk w room).1 = w)
    ∧ (∀ callId, w.db.callByRoom room = some callId →
      w.db.summaries.contains callId = false →
      (roomFinishedTask true w room).1.analyzeCount = w.analyzeCount + 1
      ∧ (roomFinishedTask true ((roomFinishedTask true w room).1)
          room).1.analyzeCount = w.analyzeCount + 1)
    ∧ (w.db.callByRoom room = none →
      roomFinishedTask analysisOk w room = (w, [FinOp.getCallContext room]))
    ∧ ∀ i c, (roomFinishedTask analysisOk w room).2.get? i
          = some (FinOp.analyzeCall c) →
        ∃ j, j < i ∧ (roomFinishedTask analysisOk w room).2.get? j
          = some (FinOp.getCallSummary c) := by
  refine ⟨?_, ?_, ?_, ?_⟩
  · intro callId hcall hsum
    constructor
    · intro op hop
      simp only [roomFinishedTask, hcall, hsum, if_true] at hop
      simp only [List.mem_cons, List.not_mem_nil, or_false] at hop
      rcases hop with rfl | rfl | rfl <;> rfl
    · have hsum' : callId ∈ w.db.summaries := by simpa using hsum
      simp [roomFinishedTask, hcall, hsum']
  · intro callId hcall hsum
    have hsum' : callId ∉ w.db.summaries := by simpa using hsum
    have h1 : (roomFinishedTask true w room).1
        = { db := { callByRoom := w.db.callByRoom
                    summaries := callId :: w.db.summaries }
            analyzeCount := w.analyzeCount + 1 } := by
      simp [roomFinishedTask, hcall, hsum']
    constructor
    · rw [h1]
    · rw [h1]
      simp [roomFinishedTask, hcall]
  · intro hnone
    simp [roomFinishedTask, hnone]
  · intro i c h
    rcases hcall : w.db.callByRoom room with _ | callId
    · simp only [roomFinishedTask, hcall] at h
      rcases i with _ | i <;> simp at h
    · by_cases hsum : w.db.summaries.contains callId = true
      · simp only [roomFinishedTask, hcall, hsum, if_true] at h
        rcases i with _ | _ | _ | i <;> simp at h
      · have hsum' : callId ∉ w.db.summaries := by simpa using hsum
        have htr : (roomFinishedTask analysisOk w room).2
            = [FinOp.getCallContext room, FinOp.updateCallState callId "ended",
               FinOp.getCallSummary callId, FinOp.analyzeCall callId] := by
          simp [roomFinishedTask, hcall, hsum']
        rw [htr] at h ⊢
        rcases i with _ | _ | _ | _ | i <;> simp at h
        exact ⟨2, by omega, by simp [h]⟩

/-- Witness for the analysis-idempotence theorem: in `whWorldW` (one
call, no summary) running the task twice yields exactly one analysis
invocation. -/
theorem roomFinished_analysis_once_witness :
    (roomFinishedTask true whWorldW "room-f").1.analyzeCount = 0 + 1
    ∧ (roomFinishedTask true ((roomFinishedTask true whWorldW "room-f").1)
        "room-f").1.analyzeCount = 0 + 1 :=
  (roomFinished_analysis_once true whWorldW "room-f").2.1 "call-f" rfl rfl

/-- Claim C10: the webhook handler performs no signature verification —
its result and side effects are identical for any two `authorization`
header values on the same body — and every truthy body whose event kind
is none of `participant_joined`, `participant_left`, `room_finished` is
acknowledged `{success: true}` with no lifecycle event, no scheduled
reap and no scheduled analysis task. -/
theorem webhook_ignores_authorization (body : Option WhEvent)
    (a1 a2 : Option String) :
    handleWebhook body a1 = handleWebhook body a2
    ∧ ∀ ev, body = some ev →
        ev.event ≠ some "participant_joined" →
        ev.event ≠ some "participant_left" →
        ev.event ≠ some "room_finished" →
        handleWebhook body a1 = (.ok { success := true }, []) := by
  constructor
  · cases body <;> rfl
  · intro ev hb h1 h2 h3
    subst hb
    simp [handleWebhook, beq_iff_eq, h1, h2, h3]

/-- Witness for the no-verification theorem: an unknown
`track_published` event is acknowledged identically with a bogus bearer
and with no header, producing no effect. -/
theorem webhook_ignores_authorization_witness :
    handleWebhook (some whEventUnknownW) (some "Bearer bogus")
      = handleWebhook (some whEventUnknownW) none
    ∧ handleWebhook (some whEventUnknownW) (some "Bearer bogus")
      = (.ok { success := true }, []) := by
  have h := webhook_ignores_authorization (some whEventUnknownW)
    (some "Bearer bogus") none
  exact ⟨h.1, h.2 whEventUnknownW rfl (by simp [whEventUnknownW])
    (by simp [whEventUnknownW]) (by simp [whEventUnknownW])⟩

end OpsApi
